import Mathlib

/-
Shallow embedding of the NVDA magnifier plugin
(src/magnifier-latest/globalPlugins/maginifier-mouse-latest.py, with the
older variant src/source/magnifier-mouse-centered/globalPlugins/
maginifier-mouse-centered.py where a claim cites it).

Python floats are modelled as rationals (the spec itself treats the
geometry as real-valued, truncating only at the final left/top); screen
coordinates are integers; `int(...)` is truncation toward zero.
-/

set_option allowUnsafeReducibility true
attribute [local semireducible] Rat.mul Rat.add Rat.sub Rat.inv Rat.ofScientific

namespace NvdaMagnifier

/-- ZOOM_MIN constant from the source. -/
def ZOOM_MIN : ℚ := 1.5

/-- ZOOM_MAX constant from the source. -/
def ZOOM_MAX : ℚ := 10.0

/-- ZOOM_STEP constant from the source. -/
def ZOOM_STEP : ℚ := 0.5

/-- MARGIN_BORDER constant from the source (an int in Python). -/
def MARGIN_BORDER : ℤ := 50

/-- Python `int(q)`: truncation toward zero. -/
def pyInt (q : ℚ) : ℤ := if 0 ≤ q then ⌊q⌋ else ⌈q⌉

/-- The 4-tuple `(left, top, visible_width, visible_height)` returned by
`_getMagnifierWindow` in the latest variant. -/
structure MagWindow where
  left : ℤ
  top : ℤ
  visible_width : ℚ
  visible_height : ℚ
  deriving DecidableEq, Repr

/-- `_getMagnifierWindow(self, x, y)` of the latest variant:
`visible_width = screen_width / zoom`; `left = int(x - visible_width/2)`;
`left = max(0, min(left, int(screen_width - visible_width)))`; same for top. -/
def getMagnifierWindow (zoom : ℚ) (screen_width screen_height : ℤ) (x y : ℚ) : MagWindow :=
  let visible_width : ℚ := screen_width / zoom
  let visible_height : ℚ := screen_height / zoom
  let left : ℤ := pyInt (x - visible_width / 2)
  let top : ℤ := pyInt (y - visible_height / 2)
  let left : ℤ := max 0 (min left (pyInt (screen_width - visible_width)))
  let top : ℤ := max 0 (min top (pyInt (screen_height - visible_height)))
  ⟨left, top, visible_width, visible_height⟩

/-- `_getMagnifierWindow(self, x, y)` of the older centered variant, which
returns only `(left, top)`; the arithmetic is identical. -/
def getMagnifierWindowCentered (zoom : ℚ) (screenWidth screenHeight : ℤ) (x y : ℚ) :
    ℤ × ℤ :=
  let visibleWidth : ℚ := screenWidth / zoom
  let visibleHeight : ℚ := screenHeight / zoom
  let left : ℤ := pyInt (x - visibleWidth / 2)
  let top : ℤ := pyInt (y - visibleHeight / 2)
  let left : ℤ := max 0 (min left (pyInt (screenWidth - visibleWidth)))
  let top : ℤ := max 0 (min top (pyInt (screenHeight - visibleHeight)))
  (left, top)

example : getMagnifierWindow 2 1920 1080 960 540 = ⟨480, 270, 960, 540⟩ := by decide

example : getMagnifierWindow 2 1920 1080 0 0 = ⟨0, 0, 960, 540⟩ := by decide

/-- The clamp `max 0 (min l (pyInt q))` lands in `[0, q]` whenever `0 ≤ q`. -/
theorem clamp_mem_of_nonneg (l : ℤ) (q : ℚ) (hq : 0 ≤ q) :
    0 ≤ max 0 (min l (pyInt q)) ∧ ((max 0 (min l (pyInt q)) : ℤ) : ℚ) ≤ q := by
  have hB : (0 : ℤ) ≤ pyInt q := by
    simp only [pyInt, if_pos hq]
    exact Int.floor_nonneg.mpr hq
  have hle : max 0 (min l (pyInt q)) ≤ pyInt q :=
    max_le hB (min_le_right _ _)
  refine ⟨le_max_left _ _, ?_⟩
  have : ((max 0 (min l (pyInt q)) : ℤ) : ℚ) ≤ ((pyInt q : ℤ) : ℚ) := by exact_mod_cast hle
  refine this.trans ?_
  simp only [pyInt, if_pos hq]
  exact Int.floor_le q

/-- The clamp `max 0 (min l (pyInt q))` is `0` whenever `q ≤ 0`. -/
theorem clamp_eq_zero_of_nonpos (l : ℤ) (q : ℚ) (hq : q ≤ 0) :
    max 0 (min l (pyInt q)) = 0 := by
  have hB : pyInt q ≤ 0 := by
    by_cases h : 0 ≤ q
    · simp only [pyInt, if_pos h]
      exact Int.floor_nonpos hq
    · simp only [pyInt, if_neg h]
      refine Int.ceil_le.mpr ?_
      exact_mod_cast hq
  exact max_eq_left ((min_le_right _ _).trans hB)

/-- Mouse-tracking mode: `self.mode` is the string "center" or "border". -/
inductive Mode
  | center
  | border
  deriving DecidableEq, Repr

/-- A user-facing `ui.message` call, abstracted to which message is spoken. -/
inductive Msg
  | magnifierStarted (mode : Mode)
  | magnifierStopped
  | zoomChanged (zoom : ℚ)
  | zoomNotActive
  | modeChangedToBorder
  | modeChangedToCenter
  | modeNotActive
  deriving DecidableEq, Repr

/-- Observable side effects of the plugin: renderer transform calls
(`MagSetFullscreenTransform` with the current zoom from `_centerMagnifier`),
renderer resets (`MagSetFullscreenTransform(1.0, 0, 0)` from
`_resetMagnifier`), pointer warps (`winUser.setCursorPos`), and messages. -/
inductive Effect
  | applyTransform (zoom : ℚ) (left top : ℤ)
  | resetTransform
  | setCursorPos (x y : ℤ)
  | message (m : Msg)
  deriving DecidableEq, Repr

/-- The instance fields set in `__init__` of the latest variant. `timer`
records whether a `wx.CallLater` tick is currently scheduled.
`last_screen_left/top` are rationals: Python starts them as ints but border
mode adds a float `dx` to them. -/
structure PluginState where
  timer : Bool
  magnifier_is_on : Bool
  zoom : ℚ
  last_mouse_pos : ℤ × ℤ
  last_nvda_pos : ℤ × ℤ
  last_screen_left : ℚ
  last_screen_top : ℚ
  mode : Mode
  deriving DecidableEq, Repr

/-- The state built by `__init__`: no timer, off, zoom 2.0, all positions 0,
mode "center". -/
def initState : PluginState :=
  ⟨false, false, 2.0, (0, 0), (0, 0), 0, 0, Mode.center⟩

/-- Fresh per-tick readings of the external providers: `_getNVDAPosition()`,
`_getMousePosition()`, and `GetSystemMetrics(0)/(1)`. -/
structure Env where
  nvda_pos : ℤ × ℤ
  mouse_pos : ℤ × ℤ
  screen_width : ℤ
  screen_height : ℤ
  deriving DecidableEq, Repr

/-- `_resetMagnifier`: one renderer reset call (its failure is only logged). -/
def resetMagnifier : List Effect := [Effect.resetTransform]

/-- `_continueMagnifier`: stop any pending timer; while on, schedule a fresh
tick; otherwise clear the timer and reset the renderer. -/
def continueMagnifier (s : PluginState) : PluginState × List Effect :=
  if s.magnifier_is_on then
    ({ s with timer := true }, [])
  else
    ({ s with timer := false }, resetMagnifier)

/-- `_centerMagnifier(x, y)`: apply the fullscreen transform at the window
computed for `(x, y)` (failure only logged), then `_continueMagnifier`. -/
def centerMagnifier (s : PluginState) (sw sh : ℤ) (x y : ℚ) : PluginState × List Effect :=
  let w := getMagnifierWindow s.zoom sw sh x y
  let p := continueMagnifier s
  (p.1, Effect.applyTransform s.zoom w.left w.top :: p.2)

/-- The zoom update inside `_zoom(direction)`:
`min(zoom + ZOOM_STEP, ZOOM_MAX)` on `direction > 0`, else
`max(zoom - ZOOM_STEP, ZOOM_MIN)`. -/
def zoomStep (zoom : ℚ) (direction : ℤ) : ℚ :=
  if 0 < direction then min (zoom + ZOOM_STEP) ZOOM_MAX
  else max (zoom - ZOOM_STEP) ZOOM_MIN

/-- `_zoom(direction)`: only acts while the magnifier is on; otherwise a
guidance message and nothing else. -/
def zoomOp (s : PluginState) (sw sh : ℤ) (direction : ℤ) : PluginState × List Effect :=
  if s.magnifier_is_on then
    let s1 := { s with zoom := zoomStep s.zoom direction }
    let p := centerMagnifier s1 sw sh s1.last_screen_left s1.last_screen_top
    (p.1, Effect.message (Msg.zoomChanged s1.zoom) :: p.2)
  else
    (s, [Effect.message Msg.zoomNotActive])

/-- `script_toggleMagnifier`: toggle on schedules the first tick; toggle off
clears the flag and resets the renderer, but does not stop the timer. -/
def toggleMagnifier (s : PluginState) : PluginState × List Effect :=
  if !s.magnifier_is_on then
    ({ s with magnifier_is_on := true, timer := true },
      [Effect.message (Msg.magnifierStarted s.mode)])
  else
    ({ s with magnifier_is_on := false },
      resetMagnifier ++ [Effect.message Msg.magnifierStopped])

/-- `script_toggleMouseMode`: flips the mode while on; otherwise a guidance
message and nothing else. -/
def toggleMouseMode (s : PluginState) : PluginState × List Effect :=
  if s.magnifier_is_on then
    if s.mode = Mode.center then
      ({ s with mode := Mode.border }, [Effect.message Msg.modeChangedToBorder])
    else
      ({ s with mode := Mode.center }, [Effect.message Msg.modeChangedToCenter])
  else
    (s, [Effect.message Msg.modeNotActive])

/-- The `dx`/`dy` computation of `_isMouseNearBorder` over the window it
reads: `min_x = left + MARGIN_BORDER` is a Python int while
`max_x = left + visible_width - MARGIN_BORDER` is a Python float; `dx` is 0
unless `mouse_x < min_x` (then `mouse_x - min_x`) or `mouse_x > max_x` (then
`mouse_x - max_x`), and likewise `dy`. -/
def borderDelta (left top : ℤ) (visible_width visible_height : ℚ)
    (mouse_x mouse_y : ℤ) : ℚ × ℚ :=
  let min_x : ℤ := left + MARGIN_BORDER
  let max_x : ℚ := (left : ℚ) + visible_width - (MARGIN_BORDER : ℚ)
  let min_y : ℤ := top + MARGIN_BORDER
  let max_y : ℚ := (top : ℚ) + visible_height - (MARGIN_BORDER : ℚ)
  let dx : ℚ := if mouse_x < min_x then ((mouse_x - min_x : ℤ) : ℚ)
    else if (mouse_x : ℚ) > max_x then (mouse_x : ℚ) - max_x else 0
  let dy : ℚ := if mouse_y < min_y then ((mouse_y - min_y : ℤ) : ℚ)
    else if (mouse_y : ℚ) > max_y then (mouse_y : ℚ) - max_y else 0
  (dx, dy)

/-- `_isMouseNearBorder`: recompute the window at the stored anchor, record
the mouse position, shift the anchor by `(dx, dy)` when either is nonzero,
and return the (possibly updated) anchor. -/
def isMouseNearBorder (s : PluginState) (sw sh : ℤ) (mouse : ℤ × ℤ) :
    PluginState × (ℚ × ℚ) :=
  let w := getMagnifierWindow s.zoom sw sh s.last_screen_left s.last_screen_top
  let s1 := { s with last_mouse_pos := mouse }
  let d := borderDelta w.left w.top w.visible_width w.visible_height mouse.1 mouse.2
  if d.1 ≠ 0 ∨ d.2 ≠ 0 then
    let s2 := { s1 with last_screen_left := s1.last_screen_left + d.1,
                        last_screen_top := s1.last_screen_top + d.2 }
    (s2, (s2.last_screen_left, s2.last_screen_top))
  else
    (s1, (s1.last_screen_left, s1.last_screen_top))

/-- `_focusOnNvda(pos)`: record the accessibility position, move the anchor
there, warp the pointer there, and return the position. -/
def focusOnNvda (s : PluginState) (pos : ℤ × ℤ) :
    PluginState × List Effect × (ℚ × ℚ) :=
  let s1 := { s with last_nvda_pos := pos,
                     last_screen_left := (pos.1 : ℚ), last_screen_top := (pos.2 : ℚ) }
  (s1, [Effect.setCursorPos pos.1 pos.2], ((pos.1 : ℚ), (pos.2 : ℚ)))

/-- `_focusOnMouse(pos)`: record the mouse position; in border mode delegate
to `_isMouseNearBorder`, otherwise move the anchor to the mouse position. -/
def focusOnMouse (s : PluginState) (sw sh : ℤ) (pos : ℤ × ℤ) :
    PluginState × List Effect × (ℚ × ℚ) :=
  let s1 := { s with last_mouse_pos := pos }
  if s1.mode = Mode.border then
    let p := isMouseNearBorder s1 sw sh pos
    (p.1, [], p.2)
  else
    let s2 := { s1 with last_screen_left := (pos.1 : ℚ), last_screen_top := (pos.2 : ℚ) }
    (s2, [], ((pos.1 : ℚ), (pos.2 : ℚ)))

/-- `_chooseFocus`, the per-tick handler: accessibility movement wins, then
mouse movement, else the idle path `_continueMagnifier`. The third component
is the `focus_pos` handed to `_centerMagnifier` (`none` on the idle path). -/
def chooseFocus (s : PluginState) (env : Env) :
    PluginState × List Effect × Option (ℚ × ℚ) :=
  if s.last_nvda_pos ≠ env.nvda_pos then
    let f := focusOnNvda s env.nvda_pos
    let p := centerMagnifier f.1 env.screen_width env.screen_height f.2.2.1 f.2.2.2
    (p.1, f.2.1 ++ p.2, some f.2.2)
  else if s.last_mouse_pos ≠ env.mouse_pos then
    let f := focusOnMouse s env.screen_width env.screen_height env.mouse_pos
    let p := centerMagnifier f.1 env.screen_width env.screen_height f.2.2.1 f.2.2.2
    (p.1, f.2.1 ++ p.2, some f.2.2)
  else
    let p := continueMagnifier s
    (p.1, p.2, none)

/-- Recognizer for `applyTransform` renderer calls. -/
def isApplyTransform : Effect → Bool
  | Effect.applyTransform _ _ _ => true
  | _ => false

/-- Recognizer for renderer reset calls. -/
def isResetTransform : Effect → Bool
  | Effect.resetTransform => true
  | _ => false

/-- Recognizer for any renderer call (transform apply or reset). -/
def isRendererCall (e : Effect) : Bool := isApplyTransform e || isResetTransform e

/-- Number of `applyTransform` calls in a trace. -/
def countApply (l : List Effect) : ℕ := l.countP isApplyTransform

/-- Number of renderer reset calls in a trace. -/
def countReset (l : List Effect) : ℕ := l.countP isResetTransform

/-- Number of renderer calls of either kind in a trace. -/
def countRenderer (l : List Effect) : ℕ := l.countP isRendererCall

/-- Claim C2: for every center point, every zoom in `[ZOOM_MIN, ZOOM_MAX]`, and
every screen bounds with width ≥ 1 and height ≥ 1, `_getMagnifierWindow` returns
`left` and `top` with `0 ≤ left ≤ width - visible_width` and
`0 ≤ top ≤ height - visible_height` (viewport fully on screen); the older
centered variant computes the same `(left, top)`. -/
theorem viewport_fully_on_screen (zoom : ℚ) (sw sh : ℤ) (x y : ℚ)
    (hz1 : ZOOM_MIN ≤ zoom) (hz2 : zoom ≤ ZOOM_MAX) (hw : 1 ≤ sw) (hh : 1 ≤ sh) :
    0 ≤ (getMagnifierWindow zoom sw sh x y).left ∧
    ((getMagnifierWindow zoom sw sh x y).left : ℚ)
      ≤ (sw : ℚ) - (getMagnifierWindow zoom sw sh x y).visible_width ∧
    0 ≤ (getMagnifierWindow zoom sw sh x y).top ∧
    ((getMagnifierWindow zoom sw sh x y).top : ℚ)
      ≤ (sh : ℚ) - (getMagnifierWindow zoom sw sh x y).visible_height ∧
    getMagnifierWindowCentered zoom sw sh x y
      = ((getMagnifierWindow zoom sw sh x y).left, (getMagnifierWindow zoom sw sh x y).top) := by
  have h1 : (1 : ℚ) ≤ zoom := le_trans (by norm_num [ZOOM_MIN]) hz1
  have hwQ : (0 : ℚ) ≤ (sw : ℚ) := by exact_mod_cast le_trans zero_le_one hw
  have hhQ : (0 : ℚ) ≤ (sh : ℚ) := by exact_mod_cast le_trans zero_le_one hh
  have hW : (0 : ℚ) ≤ (sw : ℚ) - (sw : ℚ) / zoom := sub_nonneg.mpr (div_le_self hwQ h1)
  have hH : (0 : ℚ) ≤ (sh : ℚ) - (sh : ℚ) / zoom := sub_nonneg.mpr (div_le_self hhQ h1)
  obtain ⟨hl0, hl1⟩ :=
    clamp_mem_of_nonneg (pyInt (x - (sw : ℚ) / zoom / 2)) ((sw : ℚ) - (sw : ℚ) / zoom) hW
  obtain ⟨ht0, ht1⟩ :=
    clamp_mem_of_nonneg (pyInt (y - (sh : ℚ) / zoom / 2)) ((sh : ℚ) - (sh : ℚ) / zoom) hH
  refine ⟨hl0, ?_, ht0, ?_, rfl⟩
  · simpa [getMagnifierWindow, sub_eq_iff_eq_add] using hl1
  · simpa [getMagnifierWindow, sub_eq_iff_eq_add] using ht1

/-- Witness for `viewport_fully_on_screen` at zoom 2 on a 1920×1080 screen,
centered on (960, 540). -/
theorem viewport_fully_on_screen_witness :
    ZOOM_MIN ≤ (2 : ℚ) ∧ (2 : ℚ) ≤ ZOOM_MAX ∧ (1 : ℤ) ≤ 1920 ∧ (1 : ℤ) ≤ 1080 ∧
    (0 ≤ (getMagnifierWindow 2 1920 1080 960 540).left ∧
      ((getMagnifierWindow 2 1920 1080 960 540).left : ℚ)
        ≤ ((1920 : ℤ) : ℚ) - (getMagnifierWindow 2 1920 1080 960 540).visible_width ∧
      0 ≤ (getMagnifierWindow 2 1920 1080 960 540).top ∧
      ((getMagnifierWindow 2 1920 1080 960 540).top : ℚ)
        ≤ ((1080 : ℤ) : ℚ) - (getMagnifierWindow 2 1920 1080 960 540).visible_height ∧
      getMagnifierWindowCentered 2 1920 1080 960 540
        = ((getMagnifierWindow 2 1920 1080 960 540).left,
           (getMagnifierWindow 2 1920 1080 960 540).top)) :=
  ⟨by decide, by decide, by decide, by decide,
    viewport_fully_on_screen 2 1920 1080 960 540 (by decide) (by decide) (by decide) (by decide)⟩

/-- Claim C8: for every center point and screen bounds (width, height ≥ 1), if
`zoom < 1` then the visible area exceeds the screen and `_getMagnifierWindow`
returns `left = 0` and `top = 0` (the `max(0, ...)` clamp absorbs the inverted
upper bound). -/
theorem viewport_inverted_clamp_zero (zoom : ℚ) (sw sh : ℤ) (x y : ℚ)
    (hz0 : 0 < zoom) (hz1 : zoom < 1) (hw : 1 ≤ sw) (hh : 1 ≤ sh) :
    (sw : ℚ) < (getMagnifierWindow zoom sw sh x y).visible_width ∧
    (sh : ℚ) < (getMagnifierWindow zoom sw sh x y).visible_height ∧
    (getMagnifierWindow zoom sw sh x y).left = 0 ∧
    (getMagnifierWindow zoom sw sh x y).top = 0 := by
  have hwQ : (0 : ℚ) < (sw : ℚ) := by exact_mod_cast lt_of_lt_of_le zero_lt_one hw
  have hhQ : (0 : ℚ) < (sh : ℚ) := by exact_mod_cast lt_of_lt_of_le zero_lt_one hh
  have hW : (sw : ℚ) < (sw : ℚ) / zoom := by
    rw [lt_div_iff hz0]
    exact mul_lt_of_lt_one_right hwQ hz1
  have hH : (sh : ℚ) < (sh : ℚ) / zoom := by
    rw [lt_div_iff hz0]
    exact mul_lt_of_lt_one_right hhQ hz1
  refine ⟨hW, hH, ?_, ?_⟩
  · simpa [getMagnifierWindow] using
      clamp_eq_zero_of_nonpos (pyInt (x - (sw : ℚ) / zoom / 2))
        ((sw : ℚ) - (sw : ℚ) / zoom) (sub_nonpos.mpr hW.le)
  · simpa [getMagnifierWindow] using
      clamp_eq_zero_of_nonpos (pyInt (y - (sh : ℚ) / zoom / 2))
        ((sh : ℚ) - (sh : ℚ) / zoom) (sub_nonpos.mpr hH.le)

/-- Witness for `viewport_inverted_clamp_zero` at zoom 1/2 on a 1920×1080
screen centered on (10, 10). -/
theorem viewport_inverted_clamp_zero_witness :
    (0 : ℚ) < 1/2 ∧ (1/2 : ℚ) < 1 ∧ (1 : ℤ) ≤ 1920 ∧ (1 : ℤ) ≤ 1080 ∧
    (((1920 : ℤ) : ℚ) < (getMagnifierWindow (1/2) 1920 1080 10 10).visible_width ∧
      ((1080 : ℤ) : ℚ) < (getMagnifierWindow (1/2) 1920 1080 10 10).visible_height ∧
      (getMagnifierWindow (1/2) 1920 1080 10 10).left = 0 ∧
      (getMagnifierWindow (1/2) 1920 1080 10 10).top = 0) :=
  ⟨by decide, by decide, by decide, by decide,
    viewport_inverted_clamp_zero (1/2) 1920 1080 10 10
      (by decide) (by decide) (by decide) (by decide)⟩

/-- One zoom step preserves `ZOOM_MIN ≤ zoom ≤ ZOOM_MAX`. -/
theorem zoomStep_preserves (z : ℚ) (d : ℤ) (h1 : ZOOM_MIN ≤ z) (h2 : z ≤ ZOOM_MAX) :
    ZOOM_MIN ≤ zoomStep z d ∧ zoomStep z d ≤ ZOOM_MAX := by
  have hms : ZOOM_MIN ≤ ZOOM_MAX := by norm_num [ZOOM_MIN, ZOOM_MAX]
  have hstep : (0 : ℚ) ≤ ZOOM_STEP := by norm_num [ZOOM_STEP]
  unfold zoomStep
  split
  · exact ⟨le_min (by linarith) hms, min_le_right _ _⟩
  · exact ⟨le_max_right _ _, max_le (by linarith) hms⟩

/-- Iterating a zoom step from the initial zoom keeps the invariant. -/
theorem zoomStep_iterate_preserves (d : ℤ) (n : ℕ) :
    ZOOM_MIN ≤ (fun z => zoomStep z d)^[n] initState.zoom ∧
    (fun z => zoomStep z d)^[n] initState.zoom ≤ ZOOM_MAX := by
  induction n with
  | zero =>
    constructor <;> norm_num [initState, ZOOM_MIN, ZOOM_MAX]
  | succ n ih =>
    rw [Function.iterate_succ_apply']
    exact zoomStep_preserves _ d ih.1 ih.2

/-- Claim C7: starting from the initial zoom 2.0, `ZOOM_MIN ≤ zoom ≤ ZOOM_MAX`
is preserved by every zoom step; repeated zoom-in never exceeds `ZOOM_MAX`,
repeated zoom-out never goes below `ZOOM_MIN`, and each step changes the zoom
by exactly `ZOOM_STEP` unless clamped at a bound. -/
theorem zoom_invariant_and_steps :
    (ZOOM_MIN ≤ initState.zoom ∧ initState.zoom ≤ ZOOM_MAX) ∧
    (∀ z : ℚ, ∀ d : ℤ, ZOOM_MIN ≤ z → z ≤ ZOOM_MAX →
      ZOOM_MIN ≤ zoomStep z d ∧ zoomStep z d ≤ ZOOM_MAX) ∧
    (∀ n : ℕ, (fun z => zoomStep z 1)^[n] initState.zoom ≤ ZOOM_MAX) ∧
    (∀ n : ℕ, ZOOM_MIN ≤ (fun z => zoomStep z (-1))^[n] initState.zoom) ∧
    (∀ z : ℚ, z + ZOOM_STEP ≤ ZOOM_MAX → zoomStep z 1 = z + ZOOM_STEP) ∧
    (∀ z : ℚ, ZOOM_MAX < z + ZOOM_STEP → zoomStep z 1 = ZOOM_MAX) ∧
    (∀ z : ℚ, ZOOM_MIN ≤ z - ZOOM_STEP → zoomStep z (-1) = z - ZOOM_STEP) ∧
    (∀ z : ℚ, z - ZOOM_STEP < ZOOM_MIN → zoomStep z (-1) = ZOOM_MIN) := by
  refine ⟨⟨by norm_num [initState, ZOOM_MIN], by norm_num [initState, ZOOM_MAX]⟩,
    zoomStep_preserves,
    fun n => (zoomStep_iterate_preserves 1 n).2,
    fun n => (zoomStep_iterate_preserves (-1) n).1,
    fun z h => ?_, fun z h => ?_, fun z h => ?_, fun z h => ?_⟩
  · simp only [zoomStep, if_pos Int.zero_lt_one]
    exact min_eq_left h
  · simp only [zoomStep, if_pos Int.zero_lt_one]
    exact min_eq_right h.le
  · have : ¬ (0 : ℤ) < -1 := by decide
    simp only [zoomStep, if_neg this]
    exact max_eq_left h
  · have : ¬ (0 : ℤ) < -1 := by decide
    simp only [zoomStep, if_neg this]
    exact max_eq_right h.le

/-- Claim C9: with no active session, a zoom-step request or a mode-toggle
request only speaks a guidance message: the state is returned unchanged and
no renderer call is made. -/
theorem inactive_requests_rejected (s : PluginState) (sw sh : ℤ) (d : ℤ)
    (h : s.magnifier_is_on = false) :
    zoomOp s sw sh d = (s, [Effect.message Msg.zoomNotActive]) ∧
    toggleMouseMode s = (s, [Effect.message Msg.modeNotActive]) ∧
    countRenderer (zoomOp s sw sh d).2 = 0 ∧
    countRenderer (toggleMouseMode s).2 = 0 := by
  have hz : zoomOp s sw sh d = (s, [Effect.message Msg.zoomNotActive]) := by
    simp [zoomOp, h]
  have hm : toggleMouseMode s = (s, [Effect.message Msg.modeNotActive]) := by
    simp [toggleMouseMode, h]
  refine ⟨hz, hm, ?_, ?_⟩
  · rw [hz]; rfl
  · rw [hm]; rfl

/-- Witness for `inactive_requests_rejected` on the freshly constructed
(inactive) plugin state. -/
theorem inactive_requests_rejected_witness :
    initState.magnifier_is_on = false ∧
    (zoomOp initState 1920 1080 1 = (initState, [Effect.message Msg.zoomNotActive]) ∧
      toggleMouseMode initState = (initState, [Effect.message Msg.modeNotActive]) ∧
      countRenderer (zoomOp initState 1920 1080 1).2 = 0 ∧
      countRenderer (toggleMouseMode initState).2 = 0) :=
  ⟨by decide, inactive_requests_rejected initState 1920 1080 1 (by decide)⟩

/-- Witness for `zoom_invariant_and_steps`: one zoom-in step from the initial
zoom 2.0 lands on 2.5, inside the bounds. -/
theorem zoom_invariant_and_steps_witness :
    ZOOM_MIN ≤ (2.0 : ℚ) ∧ (2.0 : ℚ) ≤ ZOOM_MAX ∧
    (ZOOM_MIN ≤ zoomStep 2.0 1 ∧ zoomStep 2.0 1 ≤ ZOOM_MAX) ∧
    ((2.0 : ℚ) + ZOOM_STEP ≤ ZOOM_MAX ∧ zoomStep 2.0 1 = 2.0 + ZOOM_STEP) :=
  ⟨by decide, by decide,
    zoom_invariant_and_steps.2.1 2.0 1 (by decide) (by decide),
    by decide, zoom_invariant_and_steps.2.2.2.2.1 2.0 (by decide)⟩

/-- Claim C4: for a viewport wider and taller than twice the margin, the
border-follow deltas are 0 inside the inner zone, `pointer - min` left/above
it, and `pointer - max` right/below it; concretely with margin 50 and
viewport `(0, 0, 500, 400)`, a pointer at (300, 200) gives `dx = dy = 0` with
the anchor unchanged, and a pointer at (10, 200) gives `dx = -40`. -/
theorem border_deadzone_deltas (left top : ℤ) (vw vh : ℚ) (mx my : ℤ)
    (hvw : 2 * ((MARGIN_BORDER : ℤ) : ℚ) < vw) (hvh : 2 * ((MARGIN_BORDER : ℤ) : ℚ) < vh) :
    ((left + MARGIN_BORDER ≤ mx ∧ (mx : ℚ) ≤ (left : ℚ) + vw - ((MARGIN_BORDER : ℤ) : ℚ) →
        (borderDelta left top vw vh mx my).1 = 0) ∧
      (mx < left + MARGIN_BORDER →
        (borderDelta left top vw vh mx my).1 = ((mx - (left + MARGIN_BORDER) : ℤ) : ℚ)) ∧
      ((left : ℚ) + vw - ((MARGIN_BORDER : ℤ) : ℚ) < (mx : ℚ) →
        (borderDelta left top vw vh mx my).1
          = (mx : ℚ) - ((left : ℚ) + vw - ((MARGIN_BORDER : ℤ) : ℚ)))) ∧
    ((top + MARGIN_BORDER ≤ my ∧ (my : ℚ) ≤ (top : ℚ) + vh - ((MARGIN_BORDER : ℤ) : ℚ) →
        (borderDelta left top vw vh mx my).2 = 0) ∧
      (my < top + MARGIN_BORDER →
        (borderDelta left top vw vh mx my).2 = ((my - (top + MARGIN_BORDER) : ℤ) : ℚ)) ∧
      ((top : ℚ) + vh - ((MARGIN_BORDER : ℤ) : ℚ) < (my : ℚ) →
        (borderDelta left top vw vh mx my).2
          = (my : ℚ) - ((top : ℚ) + vh - ((MARGIN_BORDER : ℤ) : ℚ)))) ∧
    borderDelta 0 0 500 400 300 200 = (0, 0) ∧
    (isMouseNearBorder ⟨true, true, 2, (0, 0), (0, 0), 250, 200, Mode.border⟩
        1000 800 (300, 200)).1.last_screen_left = 250 ∧
    (isMouseNearBorder ⟨true, true, 2, (0, 0), (0, 0), 250, 200, Mode.border⟩
        1000 800 (300, 200)).1.last_screen_top = 200 ∧
    (borderDelta 0 0 500 400 10 200).1 = -40 := by
  refine ⟨⟨?_, ?_, ?_⟩, ⟨?_, ?_, ?_⟩, by decide, by decide, by decide, by decide⟩
  · rintro ⟨h1, h2⟩
    have hx1 : ¬ mx < left + MARGIN_BORDER := not_lt.mpr h1
    have hx2 : ¬ (mx : ℚ) > (left : ℚ) + vw - ((MARGIN_BORDER : ℤ) : ℚ) := not_lt.mpr h2
    simp only [borderDelta, if_neg hx1, if_neg hx2]
  · intro h1
    simp only [borderDelta, if_pos h1]
  · intro h2
    have h1 : ¬ mx < left + MARGIN_BORDER := by
      rw [not_lt, ← @Int.cast_le ℚ]
      push_cast
      linarith
    simp only [borderDelta, if_neg h1, if_pos h2]
  · rintro ⟨h1, h2⟩
    have hy1 : ¬ my < top + MARGIN_BORDER := not_lt.mpr h1
    have hy2 : ¬ (my : ℚ) > (top : ℚ) + vh - ((MARGIN_BORDER : ℤ) : ℚ) := not_lt.mpr h2
    simp only [borderDelta, if_neg hy1, if_neg hy2]
  · intro h1
    simp only [borderDelta, if_pos h1]
  · intro h2
    have h1 : ¬ my < top + MARGIN_BORDER := by
      rw [not_lt, ← @Int.cast_le ℚ]
      push_cast
      linarith
    simp only [borderDelta, if_neg h1, if_pos h2]

/-- Witness for `border_deadzone_deltas` at the claim's own viewport
`(0, 0, 500, 400)` and pointer (10, 200). -/
theorem border_deadzone_deltas_witness :
    2 * ((MARGIN_BORDER : ℤ) : ℚ) < 500 ∧ 2 * ((MARGIN_BORDER : ℤ) : ℚ) < 400 ∧
    ((10 : ℤ) < 0 + MARGIN_BORDER →
      (borderDelta 0 0 500 400 10 200).1 = (((10 : ℤ) - (0 + MARGIN_BORDER) : ℤ) : ℚ)) :=
  ⟨by decide, by decide,
    (border_deadzone_deltas 0 0 500 400 10 200 (by decide) (by decide)).1.2.1⟩

/-- The border-follow computation as the spec words it for the degenerate
case: when `viewport.width ≤ 2*margin` the inner bounds invert and `minX` is
clamped to `maxX` (zero-width dead-zone), similarly for Y; the three-way delta
rule is then applied to the clamped bounds. Written from the spec to compare
against `borderDelta`. -/
def borderDeltaSpecClamped (left top : ℤ) (visible_width visible_height : ℚ)
    (mouse_x mouse_y : ℤ) : ℚ × ℚ :=
  let max_x : ℚ := (left : ℚ) + visible_width - ((MARGIN_BORDER : ℤ) : ℚ)
  let min_x : ℚ := if visible_width ≤ 2 * ((MARGIN_BORDER : ℤ) : ℚ) then max_x
    else ((left + MARGIN_BORDER : ℤ) : ℚ)
  let max_y : ℚ := (top : ℚ) + visible_height - ((MARGIN_BORDER : ℤ) : ℚ)
  let min_y : ℚ := if visible_height ≤ 2 * ((MARGIN_BORDER : ℤ) : ℚ) then max_y
    else ((top + MARGIN_BORDER : ℤ) : ℚ)
  let dx : ℚ := if (mouse_x : ℚ) < min_x then (mouse_x : ℚ) - min_x
    else if (mouse_x : ℚ) > max_x then (mouse_x : ℚ) - max_x else 0
  let dy : ℚ := if (mouse_y : ℚ) < min_y then (mouse_y : ℚ) - min_y
    else if (mouse_y : ℚ) > max_y then (mouse_y : ℚ) - max_y else 0
  (dx, dy)

/-- Counterexample to claim C5: with viewport width 60 ≤ 2·50 and pointer x
30, the code's `_isMouseNearBorder` delta takes the left-of-zone branch
(`dx = 30 - 50 = -20`) while the zero-width dead-zone prescribed by the spec
gives `dx = 30 - 10 = 20`; the code performs no `minX = maxX` clamping. -/
theorem border_inverted_counterexample :
    (borderDelta 0 0 60 60 30 30).1 = -20 ∧
    (borderDeltaSpecClamped 0 0 60 60 30 30).1 = 20 ∧
    borderDelta 0 0 60 60 30 30 ≠ borderDeltaSpecClamped 0 0 60 60 30 30 := by
  decide

/-- Claim C5 as amended: for a viewport whose width is at most `2*margin` the
computation still returns a value (no crash), but no `minX = maxX` clamping is
performed: the left-of-zone test is checked first, so `dx = pointer.x - minX`
for every pointer left of `minX` — including pointers right of `maxX` — and
`dx = pointer.x - maxX` otherwise; when the width is strictly below
`2*margin`, the dead-zone is empty and `dx` is never 0. -/
theorem border_inverted_behavior (left top : ℤ) (vw vh : ℚ) (mx my : ℤ)
    (hvw : vw ≤ 2 * ((MARGIN_BORDER : ℤ) : ℚ)) :
    (borderDelta left top vw vh mx my).1
      = (if mx < left + MARGIN_BORDER then ((mx - (left + MARGIN_BORDER) : ℤ) : ℚ)
         else (mx : ℚ) - ((left : ℚ) + vw - ((MARGIN_BORDER : ℤ) : ℚ))) ∧
    (vw < 2 * ((MARGIN_BORDER : ℤ) : ℚ) → (borderDelta left top vw vh mx my).1 ≠ 0) := by
  constructor
  · by_cases h1 : mx < left + MARGIN_BORDER
    · simp only [borderDelta, if_pos h1]
    · have h1Q : ((left + MARGIN_BORDER : ℤ) : ℚ) ≤ (mx : ℚ) := by
        exact_mod_cast not_lt.mp h1
      by_cases h2 : (mx : ℚ) > (left : ℚ) + vw - ((MARGIN_BORDER : ℤ) : ℚ)
      · simp only [borderDelta, if_neg h1, if_pos h2]
      · have hmax : (mx : ℚ) ≤ (left : ℚ) + vw - ((MARGIN_BORDER : ℤ) : ℚ) := not_lt.mp h2
        have heq : (mx : ℚ) = (left : ℚ) + vw - ((MARGIN_BORDER : ℤ) : ℚ) := by
          push_cast at h1Q
          linarith
        simp only [borderDelta, if_neg h1, if_neg h2, if_neg (not_lt.mpr h1Q)]
        rw [heq]
        ring
  · intro hlt
    by_cases h1 : mx < left + MARGIN_BORDER
    · simp only [borderDelta, if_pos h1]
      have : mx - (left + MARGIN_BORDER) < 0 := by omega
      intro hc
      have : ((mx - (left + MARGIN_BORDER) : ℤ) : ℚ) < 0 := by exact_mod_cast this
      rw [hc] at this
      exact lt_irrefl 0 this
    · have h1Q : ((left + MARGIN_BORDER : ℤ) : ℚ) ≤ (mx : ℚ) := by
        exact_mod_cast not_lt.mp h1
      have h2 : (mx : ℚ) > (left : ℚ) + vw - ((MARGIN_BORDER : ℤ) : ℚ) := by
        push_cast at h1Q
        linarith
      simp only [borderDelta, if_neg h1, if_pos h2]
      have : (0 : ℚ) < (mx : ℚ) - ((left : ℚ) + vw - ((MARGIN_BORDER : ℤ) : ℚ)) := by
        linarith
      exact ne_of_gt this

/-- Witness for `border_inverted_behavior` at viewport width 60 and pointer x
30 (the counterexample input). -/
theorem border_inverted_behavior_witness :
    (60 : ℚ) ≤ 2 * ((MARGIN_BORDER : ℤ) : ℚ) ∧
    ((borderDelta 0 0 60 60 30 30).1
        = (if (30 : ℤ) < 0 + MARGIN_BORDER then (((30 : ℤ) - (0 + MARGIN_BORDER) : ℤ) : ℚ)
           else ((30 : ℤ) : ℚ) - (((0 : ℤ) : ℚ) + 60 - ((MARGIN_BORDER : ℤ) : ℚ))) ∧
      ((60 : ℚ) < 2 * ((MARGIN_BORDER : ℤ) : ℚ) → (borderDelta 0 0 60 60 30 30).1 ≠ 0)) :=
  ⟨by decide, border_inverted_behavior 0 0 60 60 30 30 (by decide)⟩

/-- `_isMouseNearBorder` only moves the anchor and records the mouse: the
activity flag is untouched. -/
theorem isMouseNearBorder_is_on (s : PluginState) (sw sh : ℤ) (m : ℤ × ℤ) :
    (isMouseNearBorder s sw sh m).1.magnifier_is_on = s.magnifier_is_on := by
  unfold isMouseNearBorder
  dsimp only
  split <;> rfl

/-- `_isMouseNearBorder` leaves the zoom untouched. -/
theorem isMouseNearBorder_zoom (s : PluginState) (sw sh : ℤ) (m : ℤ × ℤ) :
    (isMouseNearBorder s sw sh m).1.zoom = s.zoom := by
  unfold isMouseNearBorder
  dsimp only
  split <;> rfl

/-- `_isMouseNearBorder` leaves the mode untouched. -/
theorem isMouseNearBorder_mode (s : PluginState) (sw sh : ℤ) (m : ℤ × ℤ) :
    (isMouseNearBorder s sw sh m).1.mode = s.mode := by
  unfold isMouseNearBorder
  dsimp only
  split <;> rfl

/-- `_isMouseNearBorder` leaves the timer untouched. -/
theorem isMouseNearBorder_timer (s : PluginState) (sw sh : ℤ) (m : ℤ × ℤ) :
    (isMouseNearBorder s sw sh m).1.timer = s.timer := by
  unfold isMouseNearBorder
  dsimp only
  split <;> rfl

/-- `_isMouseNearBorder` records the mouse position it was given. -/
theorem isMouseNearBorder_last_mouse (s : PluginState) (sw sh : ℤ) (m : ℤ × ℤ) :
    (isMouseNearBorder s sw sh m).1.last_mouse_pos = m := by
  unfold isMouseNearBorder
  dsimp only
  split <;> rfl

/-- `_isMouseNearBorder` leaves the last accessibility position untouched. -/
theorem isMouseNearBorder_last_nvda (s : PluginState) (sw sh : ℤ) (m : ℤ × ℤ) :
    (isMouseNearBorder s sw sh m).1.last_nvda_pos = s.last_nvda_pos := by
  unfold isMouseNearBorder
  dsimp only
  split <;> rfl

/-- Full characterization of the tick handler on the accessibility branch:
when the accessibility reading moved, the handler records it, moves the
anchor, warps the pointer, applies the transform at the new position, and
re-arms (on) or tears down (off). -/
theorem chooseFocus_nvda_eq (s : PluginState) (env : Env)
    (hn : s.last_nvda_pos ≠ env.nvda_pos) :
    chooseFocus s env =
      ({ s with last_nvda_pos := env.nvda_pos,
                last_screen_left := (env.nvda_pos.1 : ℚ),
                last_screen_top := (env.nvda_pos.2 : ℚ),
                timer := s.magnifier_is_on },
       Effect.setCursorPos env.nvda_pos.1 env.nvda_pos.2 ::
         Effect.applyTransform s.zoom
           (getMagnifierWindow s.zoom env.screen_width env.screen_height
             (env.nvda_pos.1 : ℚ) (env.nvda_pos.2 : ℚ)).left
           (getMagnifierWindow s.zoom env.screen_width env.screen_height
             (env.nvda_pos.1 : ℚ) (env.nvda_pos.2 : ℚ)).top ::
         (if s.magnifier_is_on then [] else [Effect.resetTransform]),
       some ((env.nvda_pos.1 : ℚ), (env.nvda_pos.2 : ℚ))) := by
  by_cases hon : s.magnifier_is_on <;>
    simp [chooseFocus, hn, hon, focusOnNvda, centerMagnifier, continueMagnifier,
      resetMagnifier]

/-- Full characterization of the tick handler on the idle branch: nothing
moved, so the handler only re-arms (on) or tears down with one reset (off). -/
theorem chooseFocus_idle_eq (s : PluginState) (env : Env)
    (hn : s.last_nvda_pos = env.nvda_pos) (hm : s.last_mouse_pos = env.mouse_pos) :
    chooseFocus s env =
      ({ s with timer := s.magnifier_is_on },
       (if s.magnifier_is_on then [] else [Effect.resetTransform]),
       none) := by
  by_cases hon : s.magnifier_is_on <;>
    simp [chooseFocus, hn, hm, hon, continueMagnifier, resetMagnifier]

/-- Structural facts about the tick handler on the pointer branch: the mouse
reading is recorded, a target is emitted, the pointer is never warped, and
exactly one transform is applied, followed by a teardown reset iff the
magnifier was switched off. -/
theorem chooseFocus_mouse_facts (s : PluginState) (env : Env)
    (hn : s.last_nvda_pos = env.nvda_pos) (hm : s.last_mouse_pos ≠ env.mouse_pos) :
    (chooseFocus s env).1.last_mouse_pos = env.mouse_pos ∧
    (chooseFocus s env).1.timer = s.magnifier_is_on ∧
    (chooseFocus s env).2.2 ≠ none ∧
    (∀ p q : ℤ, Effect.setCursorPos p q ∉ (chooseFocus s env).2.1) ∧
    countApply (chooseFocus s env).2.1 = 1 ∧
    countReset (chooseFocus s env).2.1 = (if s.magnifier_is_on then 0 else 1) := by
  by_cases hmode : s.mode = Mode.border <;> by_cases hon : s.magnifier_is_on <;>
    simp [chooseFocus, hn, hm, hmode, hon, focusOnMouse, centerMagnifier,
      continueMagnifier, resetMagnifier, isMouseNearBorder_is_on,
      isMouseNearBorder_last_mouse, isMouseNearBorder_timer,
      countApply, countReset, isApplyTransform, isResetTransform]

/-- Claim C1: on a tick in which both the accessibility and the pointer
reading moved, the accessibility branch wins: the emitted target is the fresh
accessibility position, the stored last accessibility position and the anchor
are both set to it, and the pointer is warped to it. -/
theorem accessibility_wins_tick (s : PluginState) (env : Env)
    (hn : s.last_nvda_pos ≠ env.nvda_pos) (hm : s.last_mouse_pos ≠ env.mouse_pos) :
    (chooseFocus s env).2.2 = some ((env.nvda_pos.1 : ℚ), (env.nvda_pos.2 : ℚ)) ∧
    (chooseFocus s env).1.last_nvda_pos = env.nvda_pos ∧
    (chooseFocus s env).1.last_screen_left = (env.nvda_pos.1 : ℚ) ∧
    (chooseFocus s env).1.last_screen_top = (env.nvda_pos.2 : ℚ) ∧
    Effect.setCursorPos env.nvda_pos.1 env.nvda_pos.2 ∈ (chooseFocus s env).2.1 := by
  rw [chooseFocus_nvda_eq s env hn]
  exact ⟨rfl, rfl, rfl, rfl, List.mem_cons_self _ _⟩

/-- Witness for `accessibility_wins_tick`: an active session whose
accessibility reading jumps to (100, 50) while the mouse moved to (7, 8). -/
theorem accessibility_wins_tick_witness :
    ((⟨true, true, 2, (0, 0), (0, 0), 0, 0, Mode.center⟩ : PluginState).last_nvda_pos
        ≠ (⟨(100, 50), (7, 8), 1920, 1080⟩ : Env).nvda_pos) ∧
    ((⟨true, true, 2, (0, 0), (0, 0), 0, 0, Mode.center⟩ : PluginState).last_mouse_pos
        ≠ (⟨(100, 50), (7, 8), 1920, 1080⟩ : Env).mouse_pos) ∧
    ((chooseFocus ⟨true, true, 2, (0, 0), (0, 0), 0, 0, Mode.center⟩
          ⟨(100, 50), (7, 8), 1920, 1080⟩).2.2 = some ((100 : ℚ), (50 : ℚ)) ∧
      (chooseFocus ⟨true, true, 2, (0, 0), (0, 0), 0, 0, Mode.center⟩
          ⟨(100, 50), (7, 8), 1920, 1080⟩).1.last_nvda_pos = (100, 50) ∧
      (chooseFocus ⟨true, true, 2, (0, 0), (0, 0), 0, 0, Mode.center⟩
          ⟨(100, 50), (7, 8), 1920, 1080⟩).1.last_screen_left = (100 : ℚ) ∧
      (chooseFocus ⟨true, true, 2, (0, 0), (0, 0), 0, 0, Mode.center⟩
          ⟨(100, 50), (7, 8), 1920, 1080⟩).1.last_screen_top = (50 : ℚ) ∧
      Effect.setCursorPos 100 50 ∈ (chooseFocus ⟨true, true, 2, (0, 0), (0, 0), 0, 0,
          Mode.center⟩ ⟨(100, 50), (7, 8), 1920, 1080⟩).2.1) :=
  ⟨by decide, by decide,
    accessibility_wins_tick ⟨true, true, 2, (0, 0), (0, 0), 0, 0, Mode.center⟩
      ⟨(100, 50), (7, 8), 1920, 1080⟩ (by decide) (by decide)⟩

/-- Counterexample to claim C10: if the accessibility position jumps exactly
onto the stored last pointer position (here (5, 5)), the tick is won by the
accessibility source and the pointer is warped to (5, 5) — but the warped
reading on the following tick equals the stored last pointer position, so
that tick takes the idle path, not a pointer-move. -/
theorem warp_echo_counterexample :
    ((⟨true, true, 2, (5, 5), (0, 0), 0, 0, Mode.center⟩ : PluginState).last_nvda_pos
        ≠ ((5, 5) : ℤ × ℤ)) ∧
    Effect.setCursorPos 5 5 ∈ (chooseFocus ⟨true, true, 2, (5, 5), (0, 0), 0, 0,
        Mode.center⟩ ⟨(5, 5), (5, 5), 1920, 1080⟩).2.1 ∧
    (chooseFocus ⟨true, true, 2, (5, 5), (0, 0), 0, 0, Mode.center⟩
        ⟨(5, 5), (5, 5), 1920, 1080⟩).1.last_mouse_pos = (5, 5) ∧
    (chooseFocus (chooseFocus ⟨true, true, 2, (5, 5), (0, 0), 0, 0, Mode.center⟩
          ⟨(5, 5), (5, 5), 1920, 1080⟩).1
        ⟨(5, 5), (5, 5), 1920, 1080⟩).2.2 = none := by
  decide

/-- Claim C10 as amended: a tick won by the accessibility source updates the
last accessibility position and the anchor and warps the pointer, leaving the
stored last pointer position, the zoom, and the mode unchanged; provided the
fresh accessibility position differs from the stored last pointer position,
the warped reading on the following tick differs from it and is processed as
a pointer-move event (a target is emitted, the reading is recorded as the
last pointer position, and no warp occurs). -/
theorem accessibility_tick_echo (s : PluginState) (env : Env)
    (hn : s.last_nvda_pos ≠ env.nvda_pos) (hmp : s.last_mouse_pos ≠ env.nvda_pos) :
    (chooseFocus s env).1.last_mouse_pos = s.last_mouse_pos ∧
    (chooseFocus s env).1.zoom = s.zoom ∧
    (chooseFocus s env).1.mode = s.mode ∧
    (chooseFocus s env).1.last_nvda_pos = env.nvda_pos ∧
    (chooseFocus s env).1.last_screen_left = (env.nvda_pos.1 : ℚ) ∧
    (chooseFocus s env).1.last_screen_top = (env.nvda_pos.2 : ℚ) ∧
    Effect.setCursorPos env.nvda_pos.1 env.nvda_pos.2 ∈ (chooseFocus s env).2.1 ∧
    ∀ env2 : Env, env2.nvda_pos = env.nvda_pos → env2.mouse_pos = env.nvda_pos →
      (chooseFocus (chooseFocus s env).1 env2).1.last_mouse_pos = env.nvda_pos ∧
      (chooseFocus (chooseFocus s env).1 env2).2.2 ≠ none ∧
      ∀ p q : ℤ, Effect.setCursorPos p q ∉ (chooseFocus (chooseFocus s env).1 env2).2.1 := by
  rw [chooseFocus_nvda_eq s env hn]
  refine ⟨rfl, rfl, rfl, rfl, rfl, rfl, List.mem_cons_self _ _, ?_⟩
  intro env2 h2n h2m
  have hn2 : ({ s with last_nvda_pos := env.nvda_pos,
                       last_screen_left := (env.nvda_pos.1 : ℚ),
                       last_screen_top := (env.nvda_pos.2 : ℚ),
                       timer := s.magnifier_is_on } : PluginState).last_nvda_pos
      = env2.nvda_pos := by
    simp [h2n]
  have hm2 : ({ s with last_nvda_pos := env.nvda_pos,
                       last_screen_left := (env.nvda_pos.1 : ℚ),
                       last_screen_top := (env.nvda_pos.2 : ℚ),
                       timer := s.magnifier_is_on } : PluginState).last_mouse_pos
      ≠ env2.mouse_pos := by
    simpa [h2m] using hmp
  obtain ⟨hf1, _, hf3, hf4, _, _⟩ := chooseFocus_mouse_facts _ env2 hn2 hm2
  rw [h2m] at hf1
  exact ⟨hf1, hf3, hf4⟩

/-- Witness for `accessibility_tick_echo`: accessibility jumps to (100, 50)
while the stored last pointer position is (0, 0); the follow-up tick reads the
warped pointer at (100, 50). -/
theorem accessibility_tick_echo_witness :
    ((⟨true, true, 2, (0, 0), (0, 0), 0, 0, Mode.center⟩ : PluginState).last_nvda_pos
        ≠ (⟨(100, 50), (7, 8), 1920, 1080⟩ : Env).nvda_pos) ∧
    ((⟨true, true, 2, (0, 0), (0, 0), 0, 0, Mode.center⟩ : PluginState).last_mouse_pos
        ≠ (⟨(100, 50), (7, 8), 1920, 1080⟩ : Env).nvda_pos) ∧
    ((chooseFocus ⟨true, true, 2, (0, 0), (0, 0), 0, 0, Mode.center⟩
        ⟨(100, 50), (7, 8), 1920, 1080⟩).1.last_mouse_pos = (0, 0) ∧
      (chooseFocus (chooseFocus ⟨true, true, 2, (0, 0), (0, 0), 0, 0, Mode.center⟩
            ⟨(100, 50), (7, 8), 1920, 1080⟩).1
          ⟨(100, 50), (100, 50), 1920, 1080⟩).1.last_mouse_pos = (100, 50) ∧
      (chooseFocus (chooseFocus ⟨true, true, 2, (0, 0), (0, 0), 0, 0, Mode.center⟩
            ⟨(100, 50), (7, 8), 1920, 1080⟩).1
          ⟨(100, 50), (100, 50), 1920, 1080⟩).2.2 ≠ none) := by
  have h := accessibility_tick_echo ⟨true, true, 2, (0, 0), (0, 0), 0, 0, Mode.center⟩
    ⟨(100, 50), (7, 8), 1920, 1080⟩ (by decide) (by decide)
  have h2 := h.2.2.2.2.2.2.2 ⟨(100, 50), (100, 50), 1920, 1080⟩ rfl rfl
  exact ⟨by decide, by decide, h.1, h2.1, h2.2.1⟩

/-- Counterexample to claim C6: on an idle tick (neither reading moved) with
the magnifier switched off in the interim, the teardown path performs a
renderer call — the reset issued by `_resetMagnifier` inside
`_continueMagnifier`. -/
theorem idle_tick_counterexample :
    ((⟨true, false, 2, (0, 0), (0, 0), 0, 0, Mode.center⟩ : PluginState).last_nvda_pos
        = (⟨(0, 0), (0, 0), 1920, 1080⟩ : Env).nvda_pos) ∧
    ((⟨true, false, 2, (0, 0), (0, 0), 0, 0, Mode.center⟩ : PluginState).last_mouse_pos
        = (⟨(0, 0), (0, 0), 1920, 1080⟩ : Env).mouse_pos) ∧
    countRenderer (chooseFocus ⟨true, false, 2, (0, 0), (0, 0), 0, 0, Mode.center⟩
        ⟨(0, 0), (0, 0), 1920, 1080⟩).2.1 = 1 := by
  decide

/-- Claim C6 as amended: on a tick in which neither reading moved, no
`applyTransform` occurs and no target is emitted; while the session is still
active the driver just re-arms, with no renderer call at all; if the session
was deactivated in the interim, teardown clears the timer and performs
exactly one renderer reset. -/
theorem idle_tick_behavior (s : PluginState) (env : Env)
    (hn : s.last_nvda_pos = env.nvda_pos) (hm : s.last_mouse_pos = env.mouse_pos) :
    countApply (chooseFocus s env).2.1 = 0 ∧
    (chooseFocus s env).2.2 = none ∧
    (s.magnifier_is_on = true →
      (chooseFocus s env).2.1 = [] ∧ (chooseFocus s env).1.timer = true) ∧
    (s.magnifier_is_on = false →
      (chooseFocus s env).2.1 = [Effect.resetTransform] ∧
      (chooseFocus s env).1.timer = false) := by
  rw [chooseFocus_idle_eq s env hn hm]
  by_cases hon : s.magnifier_is_on <;>
    simp [hon, countApply, isApplyTransform]

/-- Witness for `idle_tick_behavior` on a still-active session with anchored
readings (0, 0). -/
theorem idle_tick_behavior_witness :
    ((⟨true, true, 2, (0, 0), (0, 0), 0, 0, Mode.center⟩ : PluginState).last_nvda_pos
        = (⟨(0, 0), (0, 0), 1920, 1080⟩ : Env).nvda_pos) ∧
    ((⟨true, true, 2, (0, 0), (0, 0), 0, 0, Mode.center⟩ : PluginState).last_mouse_pos
        = (⟨(0, 0), (0, 0), 1920, 1080⟩ : Env).mouse_pos) ∧
    (countApply (chooseFocus ⟨true, true, 2, (0, 0), (0, 0), 0, 0, Mode.center⟩
        ⟨(0, 0), (0, 0), 1920, 1080⟩).2.1 = 0 ∧
      (chooseFocus ⟨true, true, 2, (0, 0), (0, 0), 0, 0, Mode.center⟩
        ⟨(0, 0), (0, 0), 1920, 1080⟩).2.2 = none ∧
      ((⟨true, true, 2, (0, 0), (0, 0), 0, 0, Mode.center⟩ : PluginState).magnifier_is_on
          = true →
        (chooseFocus ⟨true, true, 2, (0, 0), (0, 0), 0, 0, Mode.center⟩
          ⟨(0, 0), (0, 0), 1920, 1080⟩).2.1 = [] ∧
        (chooseFocus ⟨true, true, 2, (0, 0), (0, 0), 0, 0, Mode.center⟩
          ⟨(0, 0), (0, 0), 1920, 1080⟩).1.timer = true) ∧
      ((⟨true, true, 2, (0, 0), (0, 0), 0, 0, Mode.center⟩ : PluginState).magnifier_is_on
          = false →
        (chooseFocus ⟨true, true, 2, (0, 0), (0, 0), 0, 0, Mode.center⟩
          ⟨(0, 0), (0, 0), 1920, 1080⟩).2.1 = [Effect.resetTransform] ∧
        (chooseFocus ⟨true, true, 2, (0, 0), (0, 0), 0, 0, Mode.center⟩
          ⟨(0, 0), (0, 0), 1920, 1080⟩).1.timer = false)) :=
  ⟨rfl, rfl, idle_tick_behavior ⟨true, true, 2, (0, 0), (0, 0), 0, 0, Mode.center⟩
    ⟨(0, 0), (0, 0), 1920, 1080⟩ rfl rfl⟩

/-- Counterexample to claim C3: deactivating an active session leaves the
scheduled tick armed (the toggle never stops the timer), and across the
toggle plus the still-pending tick the renderer is reset twice, not once;
with a pointer move in the interim, an `applyTransform` still occurs after
deactivation. -/
theorem deactivation_counterexample :
    ((⟨true, true, 2, (0, 0), (0, 0), 0, 0, Mode.center⟩ : PluginState).magnifier_is_on
        = true) ∧
    (toggleMagnifier ⟨true, true, 2, (0, 0), (0, 0), 0, 0, Mode.center⟩).1.timer = true ∧
    countReset ((toggleMagnifier ⟨true, true, 2, (0, 0), (0, 0), 0, 0, Mode.center⟩).2 ++
        (chooseFocus (toggleMagnifier ⟨true, true, 2, (0, 0), (0, 0), 0, 0,
            Mode.center⟩).1 ⟨(0, 0), (0, 0), 1920, 1080⟩).2.1) = 2 ∧
    countApply (chooseFocus (toggleMagnifier ⟨true, true, 2, (0, 0), (0, 0), 0, 0,
        Mode.center⟩).1 ⟨(0, 0), (7, 7), 1920, 1080⟩).2.1 = 1 := by
  decide

/-- Claim C3 as amended: a deactivation request on an active session does not
cancel the scheduled tick; it immediately issues one renderer reset and no
`applyTransform`. The still-pending tick then runs once more and performs the
teardown: it clears the timer and issues a second renderer reset, preceded by
exactly one `applyTransform` if either position changed in the interim and by
none otherwise. -/
theorem deactivation_behavior (s : PluginState)
    (hon : s.magnifier_is_on = true) (ht : s.timer = true) :
    (toggleMagnifier s).1.magnifier_is_on = false ∧
    (toggleMagnifier s).1.timer = true ∧
    countReset (toggleMagnifier s).2 = 1 ∧
    countApply (toggleMagnifier s).2 = 0 ∧
    ∀ env : Env,
      (chooseFocus (toggleMagnifier s).1 env).1.timer = false ∧
      countReset (chooseFocus (toggleMagnifier s).1 env).2.1 = 1 ∧
      (s.last_nvda_pos = env.nvda_pos ∧ s.last_mouse_pos = env.mouse_pos →
        countApply (chooseFocus (toggleMagnifier s).1 env).2.1 = 0) ∧
      ((s.last_nvda_pos ≠ env.nvda_pos ∨ s.last_mouse_pos ≠ env.mouse_pos) →
        countApply (chooseFocus (toggleMagnifier s).1 env).2.1 = 1) := by
  have htg : toggleMagnifier s
      = ({ s with magnifier_is_on := false },
         resetMagnifier ++ [Effect.message Msg.magnifierStopped]) := by
    simp [toggleMagnifier, hon]
  rw [htg]
  refine ⟨rfl, ht, rfl, rfl, ?_⟩
  intro env
  by_cases h1 : s.last_nvda_pos = env.nvda_pos
  · by_cases h2 : s.last_mouse_pos = env.mouse_pos
    · have hid := chooseFocus_idle_eq ({ s with magnifier_is_on := false }) env h1 h2
      rw [hid]
      refine ⟨rfl, rfl, fun _ => rfl, fun hc => ?_⟩
      rcases hc with hc | hc
      · exact absurd h1 hc
      · exact absurd h2 hc
    · obtain ⟨_, hf2, _, _, hf5, hf6⟩ :=
        chooseFocus_mouse_facts ({ s with magnifier_is_on := false }) env h1 h2
      refine ⟨hf2, ?_, fun hc => absurd hc.2 h2, fun _ => hf5⟩
      simpa using hf6
  · have hnv := chooseFocus_nvda_eq ({ s with magnifier_is_on := false }) env h1
    rw [hnv]
    refine ⟨rfl, by simp [countReset, isResetTransform], fun hc => absurd hc.1 h1,
      fun _ => by simp [countApply, isApplyTransform]⟩

/-- Witness for `deactivation_behavior` on an active session with a scheduled
tick, the pending tick firing with unchanged readings. -/
theorem deactivation_behavior_witness :
    ((⟨true, true, 2, (0, 0), (0, 0), 0, 0, Mode.center⟩ : PluginState).magnifier_is_on
        = true) ∧
    ((⟨true, true, 2, (0, 0), (0, 0), 0, 0, Mode.center⟩ : PluginState).timer = true) ∧
    countReset (toggleMagnifier ⟨true, true, 2, (0, 0), (0, 0), 0, 0, Mode.center⟩).2
        = 1 ∧
    (chooseFocus (toggleMagnifier ⟨true, true, 2, (0, 0), (0, 0), 0, 0,
        Mode.center⟩).1 ⟨(0, 0), (0, 0), 1920, 1080⟩).1.timer = false ∧
    countReset (chooseFocus (toggleMagnifier ⟨true, true, 2, (0, 0), (0, 0), 0, 0,
        Mode.center⟩).1 ⟨(0, 0), (0, 0), 1920, 1080⟩).2.1 = 1 := by
  have h := deactivation_behavior ⟨true, true, 2, (0, 0), (0, 0), 0, 0, Mode.center⟩
    rfl rfl
  have h2 := h.2.2.2.2 ⟨(0, 0), (0, 0), 1920, 1080⟩
  exact ⟨rfl, rfl, h.2.2.1, h2.1, h2.2.1⟩

end NvdaMagnifier
